import Mathlib

/-!
Verification of the license-server core in `src/app.py`.

Python strings are modelled as `List Char` (`Str`), Python's `str.split(':')`
as `splitCh`, and `datetime` values as the `DateTime` structure below (the
same seven fields a Python naive `datetime` carries).  All `datetime.now()`
calls made while serving a single request are modelled as one instant `now`,
and Python floats are modelled as exact rationals.  The process-wide HMAC tag
computation `hmac.new(SESSION_SECRET.encode(), m, sha256).hexdigest()[:16]`
is modelled as an abstract parameter `sig : Str → Str`: every theorem below is
proved for an arbitrary such function, hence in particular for the real keyed
hash; both `generate_session_token` and `verify_session_token` call the same
`sig`, exactly as both call `hmac.new` with the same process-wide secret.
-/

/-- Python `str` modelled as a list of characters. -/
abbrev Str := List Char

/-- Python's `token.split(':')`: splits a string at every colon, keeping
empty fields, so the result always has (number of colons + 1) fields. -/
def splitCh : Str → List Str
  | [] => [[]]
  | c :: rest =>
    match splitCh rest with
    | [] => [[c]]
    | h :: t => if c = ':' then [] :: h :: t else (c :: h) :: t

/-- Decimal digit character for `n % 10`-style rendering. -/
def digitCh : Nat → Char
  | 0 => '0'
  | 1 => '1'
  | 2 => '2'
  | 3 => '3'
  | 4 => '4'
  | 5 => '5'
  | 6 => '6'
  | 7 => '7'
  | 8 => '8'
  | _ => '9'

/-- Decimal rendering of a natural number, fuel-indexed for structural
recursion; `fuel` bounds the number of digits produced. -/
def natDigitsAux : Nat → Nat → Str
  | 0, _ => []
  | fuel + 1, n => if n < 10 then [digitCh n] else natDigitsAux fuel (n / 10) ++ [digitCh (n % 10)]

/-- Decimal rendering of a natural number (as C's `%d`). -/
def natDigits (n : Nat) : Str := natDigitsAux (n + 1) n

/-- Zero-padded decimal rendering of width `w` (as C's `%0wd`, which Python's
`datetime.isoformat` uses for each timestamp component). -/
def pad (w n : Nat) : Str := List.replicate (w - (natDigits n).length) '0' ++ natDigits n

/-- A Python naive `datetime`: the seven fields of the stdlib object. -/
structure DateTime where
  year : Nat
  month : Nat
  day : Nat
  hour : Nat
  minute : Nat
  second : Nat
  microsecond : Nat
deriving DecidableEq, Repr

/-- Proleptic-Gregorian leap-year rule, as Python's `calendar.isleap`. -/
def isLeap (y : Nat) : Bool := (y % 4 = 0 && y % 100 ≠ 0) || y % 400 = 0

/-- Days in a month of a given year (Python's `calendar.monthrange` count). -/
def daysInMonth (y m : Nat) : Nat :=
  if m = 2 then (if isLeap y then 29 else 28)
  else if m = 4 ∨ m = 6 ∨ m = 9 ∨ m = 11 then 30 else 31

/-- Days in the year `y` strictly before month `m` (1-based). -/
def daysBeforeMonth (y m : Nat) : Nat :=
  let base :=
    match m with
    | 1 => 0
    | 2 => 31
    | 3 => 59
    | 4 => 90
    | 5 => 120
    | 6 => 151
    | 7 => 181
    | 8 => 212
    | 9 => 243
    | 10 => 273
    | 11 => 304
    | _ => 334
  base + (if 3 ≤ m ∧ isLeap y then 1 else 0)

/-- Python's `datetime.toordinal`: day number in the proleptic Gregorian
calendar, with day 1 = 0001-01-01. -/
def toordinal (y m d : Nat) : Nat :=
  let py := y - 1
  365 * py + py / 4 + py / 400 + daysBeforeMonth y m + d - py / 100

/-- Month and day-of-month from a 0-based day-of-year, mirroring the month
scan in Python's `datetime._ord2ymd`. -/
def monthDayFrom (y doy : Nat) : Nat × Nat × Nat :=
  let L := if isLeap y then 1 else 0
  if doy < 31 then (y, 1, doy + 1)
  else if doy < 59 + L then (y, 2, doy - 30)
  else if doy < 90 + L then (y, 3, doy - (59 + L) + 1)
  else if doy < 120 + L then (y, 4, doy - (90 + L) + 1)
  else if doy < 151 + L then (y, 5, doy - (120 + L) + 1)
  else if doy < 181 + L then (y, 6, doy - (151 + L) + 1)
  else if doy < 212 + L then (y, 7, doy - (181 + L) + 1)
  else if doy < 243 + L then (y, 8, doy - (212 + L) + 1)
  else if doy < 273 + L then (y, 9, doy - (243 + L) + 1)
  else if doy < 304 + L then (y, 10, doy - (273 + L) + 1)
  else if doy < 334 + L then (y, 11, doy - (304 + L) + 1)
  else (y, 12, doy - (334 + L) + 1)

/-- Python's `datetime.fromordinal` component: (year, month, day) from a
proleptic Gregorian ordinal, via the 400/100/4/1-year cycle decomposition. -/
def fromordinal (ord : Nat) : Nat × Nat × Nat :=
  let n := ord - 1
  let n400 := n / 146097
  let r400 := n % 146097
  let n100 := r400 / 36524
  let r100 := r400 % 36524
  let n4 := r100 / 1461
  let r4 := r100 % 1461
  let n1 := r4 / 365
  let r1 := r4 % 365
  let year := 400 * n400 + 100 * n100 + 4 * n4 + n1 + 1
  if n1 = 4 ∨ n100 = 4 then (year - 1, 12, 31)
  else monthDayFrom year r1

/-- Microseconds from 0001-01-01T00:00:00 to this datetime. -/
def DateTime.toMicros (t : DateTime) : Nat :=
  (toordinal t.year t.month t.day - 1) * 86400000000
    + t.hour * 3600000000 + t.minute * 60000000 + t.second * 1000000 + t.microsecond

/-- Datetime from a microsecond count since 0001-01-01T00:00:00. -/
def microsToDateTime (m : Nat) : DateTime :=
  let days := m / 86400000000
  let rem := m % 86400000000
  let ymd := fromordinal (days + 1)
  { year := ymd.1, month := ymd.2.1, day := ymd.2.2
    hour := rem / 3600000000
    minute := rem % 3600000000 / 60000000
    second := rem % 60000000 / 1000000
    microsecond := rem % 1000000 }

/-- Python's `datetime + timedelta`, with the delta in microseconds
(`timedelta` stores microsecond resolution). -/
def DateTime.addMicros (t : DateTime) (d : Int) : DateTime :=
  microsToDateTime ((t.toMicros : Int) + d).toNat

/-- Python's `<` on naive datetimes: lexicographic on the seven fields. -/
def DateTime.ltb (a b : DateTime) : Bool :=
  if a.year < b.year then true else if b.year < a.year then false
  else if a.month < b.month then true else if b.month < a.month then false
  else if a.day < b.day then true else if b.day < a.day then false
  else if a.hour < b.hour then true else if b.hour < a.hour then false
  else if a.minute < b.minute then true else if b.minute < a.minute then false
  else if a.second < b.second then true else if b.second < a.second then false
  else decide (a.microsecond < b.microsecond)

/-- Python's `datetime.isoformat`: `YYYY-MM-DDTHH:MM:SS`, with a
`.ffffff` microsecond suffix exactly when the microsecond field is nonzero.
The rendered time-of-day always contributes exactly two colons. -/
def isoformat (t : DateTime) : Str :=
  pad 4 t.year ++ [ '-' ] ++ pad 2 t.month ++ [ '-' ] ++ pad 2 t.day ++ [ 'T' ]
    ++ pad 2 t.hour ++ [ ':' ] ++ pad 2 t.minute ++ [ ':' ] ++ pad 2 t.second
    ++ (if t.microsecond = 0 then [] else [ '.' ] ++ pad 6 t.microsecond)

/-- Value of a decimal digit character. -/
def digitVal (c : Char) : Option Nat :=
  if '0' ≤ c ∧ c ≤ '9' then some (c.toNat - 48) else none

/-- Two-digit decimal field. -/
def digit2 (a b : Char) : Option Nat := do
  let x ← digitVal a
  let y ← digitVal b
  pure (10 * x + y)

/-- Four-digit decimal field. -/
def digit4 (a b c d : Char) : Option Nat := do
  let x ← digit2 a b
  let y ← digit2 c d
  pure (100 * x + y)

/-- Fractional-second field of `datetime.fromisoformat`: exactly three or
exactly six digits after the dot, yielding microseconds. -/
def parseMicro : Str → Option Nat
  | [a, b, c] => do
    let x ← digit2 a b
    let y ← digitVal c
    pure ((10 * x + y) * 1000)
  | [a, b, c, d, e, f] => do
    let x ← digit4 a b c d
    let y ← digit2 e f
    pure (100 * x + y)
  | _ => none

/-- Time-of-day part of `datetime.fromisoformat`:
`HH[:MM[:SS[.fff[fff]]]]`. -/
def parseTime : Str → Option (Nat × Nat × Nat × Nat)
  | [h1, h2] => do
    let h ← digit2 h1 h2
    pure (h, 0, 0, 0)
  | [h1, h2, ':', m1, m2] => do
    let h ← digit2 h1 h2
    let mi ← digit2 m1 m2
    pure (h, mi, 0, 0)
  | [h1, h2, ':', m1, m2, ':', s1, s2] => do
    let h ← digit2 h1 h2
    let mi ← digit2 m1 m2
    let s ← digit2 s1 s2
    pure (h, mi, s, 0)
  | h1 :: h2 :: ':' :: m1 :: m2 :: ':' :: s1 :: s2 :: '.' :: rest => do
    let h ← digit2 h1 h2
    let mi ← digit2 m1 m2
    let s ← digit2 s1 s2
    let us ← parseMicro rest
    pure (h, mi, s, us)
  | _ => none

/-- Python's `datetime.fromisoformat` (naive datetimes, the 3.10 stdlib
grammar `YYYY-MM-DD[*HH[:MM[:SS[.fff[fff]]]]]` with any single separator
character; timezone-offset suffixes, which always contain a colon and so can
never occur in a field produced by `split(':')`, are outside the grammar).
Returns `none` where the stdlib raises `ValueError`. -/
def fromisoformat (s : Str) : Option DateTime :=
  match s with
  | y1 :: y2 :: y3 :: y4 :: '-' :: m1 :: m2 :: '-' :: d1 :: d2 :: rest =>
    match digit4 y1 y2 y3 y4, digit2 m1 m2, digit2 d1 d2 with
    | some y, some mo, some dy =>
      if 1 ≤ y ∧ 1 ≤ mo ∧ mo ≤ 12 ∧ 1 ≤ dy ∧ dy ≤ daysInMonth y mo then
        match rest with
        | [] => some ⟨y, mo, dy, 0, 0, 0, 0⟩
        | _ :: timeChars =>
          match parseTime timeChars with
          | some (h, mi, s, us) =>
            if h ≤ 23 ∧ mi ≤ 59 ∧ s ≤ 59 then some ⟨y, mo, dy, h, mi, s, us⟩ else none
          | none => none
      else none
    | _, _, _ => none
  | _ => none

/-- Floor of a rational, computed executably (`Int.fdiv` is floor
division). -/
def ratFloor (q : ℚ) : Int := Int.fdiv q.num q.den

/-- Round-half-to-even on rationals, as Python's `timedelta` fractional
component rounding and builtin `round`. -/
def roundHalfEven (q : ℚ) : Int :=
  let f := ratFloor q
  let r := q - f
  if r < 1 / 2 then f else if 1 / 2 < r then f + 1 else if f % 2 = 0 then f else f + 1

/-- Python's `round(x, 2)` under the exact-rational model of floats. -/
def round2 (q : ℚ) : ℚ := (roundHalfEven (q * 100) : ℚ) / 100

/-- The expiry `datetime.now() + timedelta(hours=hours)` computed by
`generate_session_token` (`hours` may be fractional: the active-session path
passes a fraction of hours). -/
def expiryOf (hours : ℚ) (now : DateTime) : DateTime :=
  now.addMicros (roundHalfEven (hours * 3600000000))

/-- `generate_session_token` from `src/app.py` lines 53-69: builds
`email:expiry_iso:signature` where the signature is the truncated keyed hash
of `email:expiry_iso` (the hash is the abstract parameter `sig`). -/
def generate_session_token (sig : Str → Str) (email : Str) (hours : ℚ) (now : DateTime) : Str :=
  let expiry_str := isoformat (expiryOf hours now)
  let message := email ++ [ ':' ] ++ expiry_str
  email ++ [ ':' ] ++ expiry_str ++ [ ':' ] ++ sig message

/-- Error message of the field-count check in `verify_session_token`. -/
def invalidFormatMsg : Str := "Invalid token format".toList

/-- Error message of the expiry check in `verify_session_token`. -/
def sessionExpiredMsg : Str := "Session expired".toList

/-- Error message of the signature check in `verify_session_token`. -/
def invalidSignatureMsg : Str := "Invalid signature".toList

/-- Error message of the `except` branch of `verify_session_token` when
`datetime.fromisoformat` raises (modelled without the quote marks the Python
`ValueError` text puts around the offending string). -/
def invalidIsoMsg (s : Str) : Str := "Invalid isoformat string: ".toList ++ s

/-- `verify_session_token` from `src/app.py` lines 72-103: split on `:` and
require exactly three fields, parse the expiry, compare against `now`
(`datetime.now() > expiry`), then recompute and compare the tag.  The
`except` clause catching the `ValueError` of `fromisoformat` is the
parse-failure branch; `hmac.compare_digest` is equality of the two tag
strings.  Returns (is_valid, email, error_message). -/
def verify_session_token (sig : Str → Str) (token : Str) (now : DateTime) :
    Bool × Option Str × Option Str :=
  match splitCh token with
  | [email, expiry_str, signature] =>
    match fromisoformat expiry_str with
    | none => (false, none, some (invalidIsoMsg expiry_str))
    | some expiry =>
      if DateTime.ltb expiry now then (false, some email, some sessionExpiredMsg)
      else
        let message := email ++ [ ':' ] ++ expiry_str
        if signature = sig message then (true, some email, none)
        else (false, none, some invalidSignatureMsg)
  | _ => (false, none, some invalidFormatMsg)


/-! ## The entitlement store and the authorization engine

The relational store (spec §1 treats it as an external transactional
key-value/table store) is modelled by `Store`: the `licenses` table
(key_code, status, duration_hours) and the `active_sessions` table
(user_email, expires_at).  SQL `SELECT ... fetchone` is `List.find?`,
`UPDATE` maps over matching rows, `DELETE` filters them out, `INSERT`
appends.  Each `conn.commit()` makes the connection's pending writes durable
atomically; a commit may fail (store unavailability), in which case the
transaction rolls back and the Flask route surfaces an uncaught exception
(HTTP 500, modelled as `AuthOutcome.serverError`).  `authorize` takes one
Bool per commit point in `src/app.py`'s authorize route: `c1` for the lazy
stale-session delete commit (line 329) and `c2` for the activation commit
(line 362). -/

/-- The two tables of `src/app.py`'s schema. -/
structure Store where
  licenses : List (Str × Str × Int)
  sessions : List (Str × DateTime)
deriving DecidableEq, Repr

/-- `SELECT status, duration_hours FROM licenses WHERE key_code = :k` with
`fetchone`. -/
def findLicense (db : Store) (k : Str) : Option (Str × Str × Int) :=
  db.licenses.find? (fun r => r.1 == k)

/-- `SELECT expires_at FROM active_sessions WHERE user_email = :e` with
`fetchone`. -/
def findSession (db : Store) (e : Str) : Option (Str × DateTime) :=
  db.sessions.find? (fun r => r.1 == e)

/-- `DELETE FROM active_sessions WHERE user_email = :e`. -/
def deleteSession (db : Store) (e : Str) : Store :=
  { db with sessions := db.sessions.filter (fun r => !(r.1 == e)) }

/-- `UPDATE licenses SET status = 'used' WHERE key_code = :k`. -/
def markUsed (db : Store) (k : Str) : Store :=
  { db with licenses := db.licenses.map (fun r => if r.1 == k then (r.1, "used".toList, r.2.2) else r) }

/-- `INSERT INTO active_sessions (user_email, expires_at) VALUES (:e, :t)`. -/
def insertSession (db : Store) (e : Str) (t : DateTime) : Store :=
  { db with sessions := db.sessions ++ [(e, t)] }

/-- The three activation writes of `src/app.py` lines 354-361: mark the key
used, then delete-and-insert (upsert) the session row with expiry
`now + timedelta(hours=duration)`. -/
def activateStore (db : Store) (k email : Str) (duration : Int) (now : DateTime) : Store :=
  insertSession (deleteSession (markUsed db k) email) email
    (now.addMicros (duration * 3600000000))

/-- The JSON bodies the authorize route can answer with,
tagged by which return statement of `src/app.py` produced them.
`serverError` is an uncaught store exception surfaced by Flask as HTTP 500. -/
inductive AuthOutcome where
  | missingToken
  | identityFailed (detail : Str)
  | sessionValid (email : Str) (hoursRemaining : ℚ) (sessionToken : Str)
  | keyRequired (email : Str)
  | invalidKey
  | keyAlreadyUsed
  | activated (email : Str) (durationHours : Int) (sessionToken : Str)
  | serverError
deriving DecidableEq, Repr

/-- HTTP status of each authorize outcome, from the literal status codes in
`src/app.py`. -/
def statusCode : AuthOutcome → Nat
  | .missingToken => 400
  | .identityFailed _ => 403
  | .sessionValid _ _ _ => 200
  | .keyRequired _ => 401
  | .invalidKey => 403
  | .keyAlreadyUsed => 403
  | .activated _ _ _ => 200
  | .serverError => 500

/-- The session credential carried by a response, if any. -/
def tokenOf : AuthOutcome → Option Str
  | .sessionValid _ _ tok => some tok
  | .activated _ _ tok => some tok
  | _ => none

/-- Whether a response grants access (`"authorized": True`). -/
def isAuthorized : AuthOutcome → Bool
  | .sessionValid _ _ _ => true
  | .activated _ _ _ => true
  | _ => false

/-- STEP 3 and STEP 4 of the authorize route (`src/app.py` lines 331-373):
key-required check, license lookup, already-used check, atomic activation
(all three writes then one commit, gated by `c2`), and only after a
successful commit the credential is generated. -/
def redeemPhase (sig : Str → Str) (now : DateTime) (c2 : Bool)
    (email : Str) (provided_key : Option Str) (db : Store) : AuthOutcome × Store :=
  match provided_key with
  | none => (.keyRequired email, db)
  | some k =>
    if k = [] then (.keyRequired email, db)
    else
      match findLicense db k with
      | none => (.invalidKey, db)
      | some (_, status, duration) =>
        if status = "used".toList then (.keyAlreadyUsed, db)
        else if c2 then
          (.activated email duration (generate_session_token sig email (duration : ℚ) now),
            activateStore db k email duration now)
        else (.serverError, db)

/-- The authorize route of `src/app.py` lines 270-373.  `vg` is the external
Google identity verifier (`verify_google_token` always returns either a
verified email or an error, never both, so its contract is an `Except`);
`sig` the keyed-hash parameter of the credential codec; `now` the request's
instant; `c1`/`c2` whether the two commit points succeed.  Returns the
response and the durable store after the request. -/
def authorize (vg : Str → Str → Except Str Str) (sig : Str → Str) (now : DateTime)
    (c1 c2 : Bool) (google_token : Option Str) (token_type : Str)
    (provided_key : Option Str) (db : Store) : AuthOutcome × Store :=
  match google_token with
  | none => (.missingToken, db)
  | some gt =>
    if gt = [] then (.missingToken, db)
    else
      match vg gt token_type with
      | .error e => (.identityFailed e, db)
      | .ok email =>
        match findSession db email with
        | some (_, expires_at) =>
          if DateTime.ltb now expires_at then
            let remaining : Int := (expires_at.toMicros : Int) - (now.toMicros : Int)
            let hours_left : ℚ := (remaining : ℚ) / 3600000000
            (.sessionValid email (round2 hours_left)
              (generate_session_token sig email hours_left now), db)
          else if c1 then redeemPhase sig now c2 email provided_key (deleteSession db email)
          else (.serverError, db)
        | none => redeemPhase sig now c2 email provided_key db

/-- Two requests redeeming the same key under the schedule
read₁, read₂, write₁+commit₁, write₂+commit₂: each request runs the exact
license-lookup / status-test / activation statements of `src/app.py` lines
340-362, but the second request's `SELECT` happens before the first
request's commit, which a store at read-committed isolation permits since
the route takes no row lock and uses no conditional update.  Returns both
responses and the final durable store. -/
def interleavedRedemption (sig : Str → Str) (now : DateTime) (k e1 e2 : Str)
    (db : Store) : AuthOutcome × AuthOutcome × Store :=
  let r1 := findLicense db k
  let r2 := findLicense db k
  let s1 : AuthOutcome × Store :=
    match r1 with
    | none => (.invalidKey, db)
    | some (_, status, duration) =>
      if status = "used".toList then (.keyAlreadyUsed, db)
      else (.activated e1 duration (generate_session_token sig e1 (duration : ℚ) now),
        activateStore db k e1 duration now)
  let s2 : AuthOutcome × Store :=
    match r2 with
    | none => (.invalidKey, s1.2)
    | some (_, status, duration) =>
      if status = "used".toList then (.keyAlreadyUsed, s1.2)
      else (.activated e2 duration (generate_session_token sig e2 (duration : ℚ) now),
        activateStore s1.2 k e2 duration now)
  (s1.1, s2.1, s2.2)

/-- Modelled from the spec: the File Registry and the resource selector of
the Authorize operation are absent from `src/app.py` (the source under
`src/` has no file-registry table, no resource request field and no 404
path).  Spec §3 defines a File Registry entry as a "name → retrieval
locator mapping", and §4.2 step 1 says the active-session path "attaches the
resolved resource locator (via the file-registry collaborator; if a specific
resource was requested and not found, fail with `ResourceNotFound` even
though identity/session succeeded)". -/
def findResource (registry : List (Str × Str)) (r : Str) : Option (Str × Str) :=
  registry.find? (fun p => p.1 == r)

/-- Authorize responses extended with the spec-modelled resource resolution:
either a base response carrying an optional resolved locator, or the
`ResourceNotFound` failure (HTTP 404). -/
inductive AuthOutcomeR where
  | base (o : AuthOutcome) (locator : Option Str)
  | resourceNotFound
deriving DecidableEq, Repr

/-- HTTP status of the resource-extended responses. -/
def statusCodeR : AuthOutcomeR → Nat
  | .base o _ => statusCode o
  | .resourceNotFound => 404

/-- Modelled from the spec: `authorize` extended with spec §4.2 step 1's
resource resolution on the active-session path — when a specific resource is
requested and missing from the registry the call fails with
`ResourceNotFound` even though identity and session checks succeeded;
otherwise the resolved locator is attached. -/
def authorizeWithResource (registry : List (Str × Str)) (resource : Option Str)
    (vg : Str → Str → Except Str Str) (sig : Str → Str) (now : DateTime)
    (c1 c2 : Bool) (google_token : Option Str) (token_type : Str)
    (provided_key : Option Str) (db : Store) : AuthOutcomeR × Store :=
  let (o, db') := authorize vg sig now c1 c2 google_token token_type provided_key db
  match o, resource with
  | .sessionValid email h tok, some r =>
    match findResource registry r with
    | none => (.resourceNotFound, db')
    | some (_, loc) => (.base (.sessionValid email h tok) (some loc), db')
  | _, _ => (.base o none, db')

/-- Number of colons in a string. -/
def countColon : Str → Nat
  | [] => 0
  | c :: rest => (if c = ':' then 1 else 0) + countColon rest


/-! ## Sanity evaluations of the embedded stdlib model -/

example : splitCh "a:b".toList = ["a".toList, "b".toList] := by decide
example : splitCh ":".toList = [[], []] := by decide
example : fromisoformat "2020-01-02".toList = some ⟨2020, 1, 2, 0, 0, 0, 0⟩ := by decide
example : fromisoformat "2020-13-02".toList = none := by decide
example : fromordinal (toordinal 2026 10 12) = (2026, 10, 12) := by decide
example : isoformat ⟨2026, 10, 12, 8, 30, 5, 0⟩ = "2026-10-12T08:30:05".toList := by decide
example :
    microsToDateTime ((⟨2026, 10, 12, 8, 30, 5, 0⟩ : DateTime).toMicros + 3600000000) =
      ⟨2026, 10, 12, 9, 30, 5, 0⟩ := by decide

/-! ## Lemmas: field counting in the token format -/

theorem countColon_append (a b : Str) : countColon (a ++ b) = countColon a + countColon b := by
  induction a with
  | nil => simp [countColon]
  | cons c rest ih => simp [countColon, ih]; omega

theorem digitCh_ne_colon (n : Nat) : digitCh n ≠ ':' := by
  unfold digitCh; split <;> decide

theorem countColon_natDigitsAux (fuel n : Nat) : countColon (natDigitsAux fuel n) = 0 := by
  induction fuel generalizing n with
  | zero => rfl
  | succ f ih =>
    unfold natDigitsAux
    split
    · simp [countColon, digitCh_ne_colon]
    · rw [countColon_append, ih]
      simp [countColon, digitCh_ne_colon]

theorem countColon_replicate (n : Nat) : countColon (List.replicate n '0') = 0 := by
  induction n with
  | zero => rfl
  | succ m ih => simp [List.replicate, countColon, ih]

theorem countColon_pad (w n : Nat) : countColon (pad w n) = 0 := by
  unfold pad natDigits
  rw [countColon_append, countColon_replicate, countColon_natDigitsAux]

theorem countColon_isoformat (t : DateTime) : countColon (isoformat t) = 2 := by
  unfold isoformat
  repeat rw [countColon_append]
  simp [countColon_pad, countColon]
  split <;> simp [countColon_append, countColon_pad, countColon]

theorem splitCh_ne_nil (l : Str) : splitCh l ≠ [] := by
  induction l with
  | nil => simp [splitCh]
  | cons c rest ih =>
    unfold splitCh
    rcases h : splitCh rest with _ | ⟨hh, t⟩
    · simp
    · by_cases hc : c = ':' <;> simp [hc]

theorem splitCh_length (l : Str) : (splitCh l).length = countColon l + 1 := by
  induction l with
  | nil => simp [splitCh, countColon]
  | cons c rest ih =>
    unfold splitCh
    rcases h : splitCh rest with _ | ⟨hh, t⟩
    · exact absurd h (splitCh_ne_nil rest)
    · rw [h] at ih
      simp only [List.length_cons] at ih
      by_cases hc : c = ':' <;> simp [hc, countColon, List.length_cons] <;> omega

/-- If the colon-split of a token does not have exactly three fields,
`verify_session_token` answers with the field-count error. -/
theorem verify_malformed_of_shape (sig : Str → Str) (tok : Str) (now : DateTime)
    (h : ∀ e x s, splitCh tok ≠ [e, x, s]) :
    verify_session_token sig tok now = (false, none, some invalidFormatMsg) := by
  unfold verify_session_token
  rcases hs : splitCh tok with _ | ⟨a, _ | ⟨b, _ | ⟨c, _ | ⟨d, rest⟩⟩⟩⟩
  · rfl
  · rfl
  · rfl
  · exact absurd hs (h a b c)
  · rfl

/-- Any string of the shape `field:ISO-timestamp:field` splits into at least
five fields (the rendered timestamp itself contains two colons), so
`verify_session_token` reports it as malformed whatever the outer fields,
the tag and the check time are. -/
theorem verify_iso_embedded_malformed (sig : Str → Str) (email tag : Str)
    (t0 now : DateTime) :
    verify_session_token sig (email ++ [ ':' ] ++ isoformat t0 ++ [ ':' ] ++ tag) now =
      (false, none, some invalidFormatMsg) := by
  apply verify_malformed_of_shape
  intro e x s heq
  have hlen := splitCh_length (email ++ [ ':' ] ++ isoformat t0 ++ [ ':' ] ++ tag)
  rw [heq] at hlen
  simp only [List.length_cons, List.length_nil] at hlen
  rw [countColon_append, countColon_append, countColon_append, countColon_isoformat] at hlen
  simp [countColon] at hlen
  omega

/-- Every token produced by `generate_session_token` is of that shape, so
`verify_session_token` rejects every issued token as malformed. -/
theorem generate_malformed (sig : Str → Str) (email : Str) (hours : ℚ)
    (now t : DateTime) :
    verify_session_token sig (generate_session_token sig email hours now) t =
      (false, none, some invalidFormatMsg) := by
  unfold generate_session_token
  exact verify_iso_embedded_malformed sig email _ _ t

/-- A well-formed three-field token whose parsed expiry lies strictly before
the check time is rejected as expired, with the account field echoed back,
regardless of the tag field. -/
theorem verify_expired_of (sig : Str → Str) (tok e x s : Str) (d now : DateTime)
    (hs : splitCh tok = [e, x, s]) (hp : fromisoformat x = some d)
    (hlt : DateTime.ltb d now = true) :
    verify_session_token sig tok now = (false, some e, some sessionExpiredMsg) := by
  simp only [verify_session_token, hs]
  simp only [hp]
  simp [hlt]

/-! ## Claim theorems: the credential codec -/

/-- C1.  The spec's round-trip property — `verify(issue(account, duration))`
returns valid with the same account for any check time strictly before the
computed expiry — FAILS on the code: `expiry.isoformat()` always contains two
colons, so every token built by `generate_session_token` splits into at least
five `:`-fields and `verify_session_token` returns
`(False, None, "Invalid token format")` for every issued token, at every
check time, for every account and duration. -/
theorem round_trip_always_malformed (sig : Str → Str) (email : Str) (hours : ℚ)
    (now t : DateTime) :
    verify_session_token sig (generate_session_token sig email hours now) t =
      (false, none, some invalidFormatMsg) :=
  generate_malformed sig email hours now t

/-- C6.  Replacing the tag (third conceptual) field of a validly issued token
by any string — in particular by the correct tag with any single character
`i` changed to any `c`, as the claim states — yields a token that
`verify_session_token` rejects with the field-count error
`"Invalid token format"`, NOT with the `BadSignature` kind
(`"Invalid signature"`): the claim fails on the code because issued tokens
never pass the three-field split in the first place. -/
theorem tampered_tag_reported_malformed (sig : Str → Str) (email : Str) (hours : ℚ)
    (now t : DateTime) (i : Nat) (c : Char) :
    verify_session_token sig
      (email ++ [ ':' ] ++ isoformat (expiryOf hours now) ++ [ ':' ]
        ++ (sig (email ++ [ ':' ] ++ isoformat (expiryOf hours now))).set i c) t =
      (false, none, some invalidFormatMsg) :=
  verify_iso_embedded_malformed sig email _ _ t

/-- C5.  Expired tokens are rejected with the `Expired` kind: (1) any
three-field token whose parsed embedded expiry lies strictly before the
check time is answered `(False, email, "Session expired")` whatever the tag
field holds — in particular when the tag is the correct signature; and
(2) a token issued with duration `hours` at `now` is invalid (first
component `False`) at every check time strictly after the computed expiry
`expiryOf hours now`. -/
theorem verify_rejects_expired :
    (∀ (sig : Str → Str) (tok e x s : Str) (d now : DateTime),
      splitCh tok = [e, x, s] → fromisoformat x = some d → DateTime.ltb d now = true →
      verify_session_token sig tok now = (false, some e, some sessionExpiredMsg)) ∧
    (∀ (sig : Str → Str) (email : Str) (hours : ℚ) (now t : DateTime),
      DateTime.ltb (expiryOf hours now) t = true →
      (verify_session_token sig (generate_session_token sig email hours now) t).1 = false) := by
  constructor
  · intro sig tok e x s d now hs hp hlt
    exact verify_expired_of sig tok e x s d now hs hp hlt
  · intro sig email hours now t _
    rw [generate_malformed sig email hours now t]

/-- Concrete instance of `verify_rejects_expired`: a crafted three-field
token for `bob@x.com` with the colon-free expiry `2020-01-02` and the
CORRECT tag under the concrete tag function `fun m => m.take 9` is rejected
as `"Session expired"` at a 2026 check time; and an issued 5-hour token is
invalid after its computed expiry. -/
theorem verify_rejects_expired_witness :
    verify_session_token (fun m => m.take 9)
      ("bob@x.com".toList ++ [ ':' ] ++ "2020-01-02".toList ++ [ ':' ]
        ++ (fun (m : Str) => m.take 9) ("bob@x.com".toList ++ [ ':' ] ++ "2020-01-02".toList))
      ⟨2026, 10, 12, 0, 0, 0, 0⟩ =
      (false, some "bob@x.com".toList, some sessionExpiredMsg) ∧
    (verify_session_token (fun m => m.take 9)
      (generate_session_token (fun m => m.take 9) "bob@x.com".toList 5 ⟨2026, 10, 12, 0, 0, 0, 0⟩)
      ⟨2030, 1, 1, 0, 0, 0, 0⟩).1 = false := by
  constructor
  · exact verify_rejects_expired.1 (fun m => m.take 9)
      ("bob@x.com".toList ++ [ ':' ] ++ "2020-01-02".toList ++ [ ':' ]
        ++ (fun (m : Str) => m.take 9) ("bob@x.com".toList ++ [ ':' ] ++ "2020-01-02".toList))
      "bob@x.com".toList "2020-01-02".toList
      ((fun (m : Str) => m.take 9) ("bob@x.com".toList ++ [ ':' ] ++ "2020-01-02".toList))
      ⟨2020, 1, 2, 0, 0, 0, 0⟩ ⟨2026, 10, 12, 0, 0, 0, 0⟩
      (by decide) (by decide) (by decide)
  · exact verify_rejects_expired.2 (fun m => m.take 9) "bob@x.com".toList 5
      ⟨2026, 10, 12, 0, 0, 0, 0⟩ ⟨2030, 1, 1, 0, 0, 0, 0⟩ (by with_unfolding_all decide)

/-- C10.  Whenever `verify_session_token` fails with a non-`None` account
identifier, it is precisely the expired case, and the identifier returned is
the first `:`-field taken from the token, before any signature check (the
statement quantifies over the tag field `s`, so the tag is irrelevant);
conversely the expired case always returns that identifier.  Every other
failure (wrong field count, unparseable timestamp, bad signature) returns
`None` as the identifier. -/
theorem failure_email_only_on_expiry :
    (∀ (sig : Str → Str) (tok : Str) (now : DateTime),
      (verify_session_token sig tok now).2.1 = none ∨
      (verify_session_token sig tok now).1 = true ∨
      ∃ e x s d, splitCh tok = [e, x, s] ∧ fromisoformat x = some d ∧
        DateTime.ltb d now = true ∧
        verify_session_token sig tok now = (false, some e, some sessionExpiredMsg)) ∧
    (∀ (sig : Str → Str) (tok e x s : Str) (d now : DateTime),
      splitCh tok = [e, x, s] → fromisoformat x = some d → DateTime.ltb d now = true →
      verify_session_token sig tok now = (false, some e, some sessionExpiredMsg)) := by
  constructor
  · intro sig tok now
    rcases hs : splitCh tok with _ | ⟨a, _ | ⟨b, _ | ⟨c, _ | ⟨d', rest⟩⟩⟩⟩
    · left; simp [verify_session_token, hs]
    · left; simp [verify_session_token, hs]
    · left; simp [verify_session_token, hs]
    · rcases hp : fromisoformat b with _ | dt
      · left; simp [verify_session_token, hs, hp]
      · by_cases hlt : DateTime.ltb dt now = true
        · right; right
          exact ⟨a, b, c, dt, rfl, hp, hlt, verify_expired_of sig tok a b c dt now hs hp hlt⟩
        · by_cases hsig : c = sig (a ++ ':' :: b)
          · right; left
            simp [verify_session_token, hs, hp, hlt, hsig]
          · left
            simp [verify_session_token, hs, hp, hlt, hsig]
    · left; simp [verify_session_token, hs]
  · intro sig tok e x s d now hs hp hlt
    exact verify_expired_of sig tok e x s d now hs hp hlt

/-- Concrete instance of `failure_email_only_on_expiry`: the expired-token
case returns the (unauthenticated) account field `eve@x.com` taken from the
token even though its tag field `wrongtag` is not the correct signature. -/
theorem failure_email_only_on_expiry_witness :
    verify_session_token (fun m => m.take 16)
      ("eve@x.com".toList ++ [ ':' ] ++ "2019-06-30".toList ++ [ ':' ] ++ "wrongtag".toList)
      ⟨2026, 10, 12, 0, 0, 0, 0⟩ =
      (false, some "eve@x.com".toList, some sessionExpiredMsg) :=
  failure_email_only_on_expiry.2 (fun m => m.take 16)
    ("eve@x.com".toList ++ [ ':' ] ++ "2019-06-30".toList ++ [ ':' ] ++ "wrongtag".toList)
    "eve@x.com".toList "2019-06-30".toList "wrongtag".toList
    ⟨2019, 6, 30, 0, 0, 0, 0⟩ ⟨2026, 10, 12, 0, 0, 0, 0⟩
    (by decide) (by decide) (by decide)

/-! ## Lemmas: the entitlement store -/

theorem find?_filter_ne (l : List (Str × DateTime)) (e : Str) :
    (l.filter (fun r => !(r.1 == e))).find? (fun r => r.1 == e) = none := by
  induction l with
  | nil => rfl
  | cons r rest ih =>
    by_cases h : r.1 == e
    · simp only [List.filter_cons, h, Bool.not_true, if_neg]
      exact ih
    · simp only [List.filter_cons, h, Bool.not_false, if_pos, List.find?_cons]
      simp [h, ih]

theorem find?_upsert (l : List (Str × DateTime)) (e : Str) (t : DateTime) :
    ((l.filter (fun r => !(r.1 == e))) ++ [(e, t)]).find? (fun r => r.1 == e) = some (e, t) := by
  induction l with
  | nil => simp [List.find?]
  | cons r rest ih =>
    by_cases h : r.1 == e
    · simp only [List.filter_cons, h, Bool.not_true, if_neg]
      exact ih
    · simp only [List.filter_cons, h, Bool.not_false, if_pos, List.cons_append, List.find?_cons]
      simp [h, ih]

theorem find?_map_markUsed (l : List (Str × Str × Int)) (k : Str) :
    (l.map (fun r => if r.1 == k then (r.1, "used".toList, r.2.2) else r)).find?
        (fun r => r.1 == k) =
      (l.find? (fun r => r.1 == k)).map (fun r => (r.1, "used".toList, r.2.2)) := by
  induction l with
  | nil => rfl
  | cons r rest ih =>
    cases h : r.1 == k
    · simp only [List.map_cons, List.find?_cons, h, Bool.false_eq_true, if_false, ih]
    · simp only [List.map_cons, List.find?_cons, h, if_true, Option.map_some']

/-- The lazy-expiry `DELETE` removes every session row of the account. -/
theorem findSession_delete (db : Store) (e : Str) :
    findSession (deleteSession db e) e = none :=
  find?_filter_ne db.sessions e

/-- After the activation writes, the account's session row holds the expiry
`now + timedelta(hours=duration)`. -/
theorem findSession_activate (db : Store) (k email : Str) (d : Int) (now : DateTime) :
    findSession (activateStore db k email d now) email =
      some (email, now.addMicros (d * 3600000000)) :=
  find?_upsert (markUsed db k).sessions email _

/-- After the activation writes, the redeemed key row reads `used` with its
duration unchanged. -/
theorem findLicense_activate (db : Store) (k email : Str) (d : Int) (now : DateTime) :
    findLicense (activateStore db k email d now) k =
      (findLicense db k).map (fun r => (r.1, "used".toList, r.2.2)) :=
  find?_map_markUsed db.licenses k

/-- Rounding an integer-valued rational returns that integer. -/
theorem roundHalfEven_intCast (n : Int) : roundHalfEven ((n : ℚ)) = n := by
  unfold roundHalfEven ratFloor
  rw [Rat.num_intCast, Rat.den_intCast]
  simp

/-- Evaluation of `authorize` on the active-session path: identity verified,
a session row found, and its expiry still in the future.  The response is the
200 `sessionValid` body, the credential is issued with
`(expiry − now)/3600` hours of validity, and the returned store is the input
store. -/
theorem authorize_active_eq (vg : Str → Str → Except Str Str) (sig : Str → Str)
    (now : DateTime) (c1 c2 : Bool) (gt tt : Str) (pk : Option Str) (db : Store)
    (email : Str) (exp : DateTime)
    (hgt : gt ≠ [])
    (hvg : vg gt tt = Except.ok email)
    (hs : findSession db email = some (email, exp))
    (hlt : DateTime.ltb now exp = true) :
    authorize vg sig now c1 c2 (some gt) tt pk db =
      (AuthOutcome.sessionValid email
        (round2 (((((exp.toMicros : Int) - (now.toMicros : Int)) : Int) : ℚ) / 3600000000))
        (generate_session_token sig email
          (((((exp.toMicros : Int) - (now.toMicros : Int)) : Int) : ℚ) / 3600000000) now),
        db) := by
  simp [authorize, hgt, hvg, hs, hlt]

/-! ## Claim theorems: the authorization engine -/

/-- C8.  The active-session path is read-only: with identity verified and a
session row whose expiry is still in the future, `authorize` answers the 200
`sessionValid` body, issuing the credential with validity
`hours_left = (expiry − now)/3600` hours — whose microsecond content is
exactly the remaining time `expiry − now`, as the second conjunct states —
and returns the store unchanged (no key consumed, no session row changed),
for every supplied key and both commit-outcome flags. -/
theorem active_session_read_only (vg : Str → Str → Except Str Str) (sig : Str → Str)
    (now : DateTime) (c1 c2 : Bool) (gt tt : Str) (pk : Option Str) (db : Store)
    (email : Str) (exp : DateTime)
    (hgt : gt ≠ [])
    (hvg : vg gt tt = Except.ok email)
    (hs : findSession db email = some (email, exp))
    (hlt : DateTime.ltb now exp = true) :
    authorize vg sig now c1 c2 (some gt) tt pk db =
      (AuthOutcome.sessionValid email
        (round2 (((((exp.toMicros : Int) - (now.toMicros : Int)) : Int) : ℚ) / 3600000000))
        (generate_session_token sig email
          (((((exp.toMicros : Int) - (now.toMicros : Int)) : Int) : ℚ) / 3600000000) now),
        db) ∧
    roundHalfEven ((((((exp.toMicros : Int) - (now.toMicros : Int)) : Int) : ℚ) / 3600000000)
        * 3600000000) =
      (exp.toMicros : Int) - (now.toMicros : Int) := by
  refine ⟨authorize_active_eq vg sig now c1 c2 gt tt pk db email exp hgt hvg hs hlt, ?_⟩
  rw [div_mul_cancel₀ _ (by norm_num : (3600000000 : ℚ) ≠ 0)]
  exact roundHalfEven_intCast _

/-- Concrete instance of `active_session_read_only`: a store holding a
session for `alice@example.com` expiring 2026-10-13 09:00, queried at
2026-10-12 09:00, is answered 200 with a 24-hour credential and returned
unchanged. -/
theorem active_session_read_only_witness :
    authorize (fun _ _ => Except.ok "alice@example.com".toList) (fun _ => [])
      ⟨2026, 10, 12, 9, 0, 0, 0⟩ true true (some "g".toList) "access_token".toList none
      ⟨[], [("alice@example.com".toList, ⟨2026, 10, 13, 9, 0, 0, 0⟩)]⟩ =
      (AuthOutcome.sessionValid "alice@example.com".toList
        (round2 ((((((⟨2026, 10, 13, 9, 0, 0, 0⟩ : DateTime).toMicros : Int)
            - ((⟨2026, 10, 12, 9, 0, 0, 0⟩ : DateTime).toMicros : Int)) : Int) : ℚ) / 3600000000))
        (generate_session_token (fun _ => []) "alice@example.com".toList
          ((((((⟨2026, 10, 13, 9, 0, 0, 0⟩ : DateTime).toMicros : Int)
            - ((⟨2026, 10, 12, 9, 0, 0, 0⟩ : DateTime).toMicros : Int)) : Int) : ℚ) / 3600000000)
          ⟨2026, 10, 12, 9, 0, 0, 0⟩),
        ⟨[], [("alice@example.com".toList, ⟨2026, 10, 13, 9, 0, 0, 0⟩)]⟩) ∧
    roundHalfEven (((((((⟨2026, 10, 13, 9, 0, 0, 0⟩ : DateTime).toMicros : Int)
            - ((⟨2026, 10, 12, 9, 0, 0, 0⟩ : DateTime).toMicros : Int)) : Int) : ℚ) / 3600000000)
        * 3600000000) =
      ((⟨2026, 10, 13, 9, 0, 0, 0⟩ : DateTime).toMicros : Int)
        - ((⟨2026, 10, 12, 9, 0, 0, 0⟩ : DateTime).toMicros : Int) :=
  active_session_read_only (fun _ _ => Except.ok "alice@example.com".toList) (fun _ => [])
    ⟨2026, 10, 12, 9, 0, 0, 0⟩ true true "g".toList "access_token".toList none
    ⟨[], [("alice@example.com".toList, ⟨2026, 10, 13, 9, 0, 0, 0⟩)]⟩
    "alice@example.com".toList ⟨2026, 10, 13, 9, 0, 0, 0⟩
    (by decide) rfl (by decide) (by decide)

/-- C9.  Spec-modelled `ResourceNotFound` on the active-session path: when a
specific resource is requested, identity verification succeeded and the
session check succeeded (expiry in the future), but the resource is not in
the file registry, the call fails with `ResourceNotFound` (HTTP 404) and the
store is unchanged. -/
theorem resource_not_found_despite_valid_session (registry : List (Str × Str)) (r : Str)
    (vg : Str → Str → Except Str Str) (sig : Str → Str)
    (now : DateTime) (c1 c2 : Bool) (gt tt : Str) (pk : Option Str) (db : Store)
    (email : Str) (exp : DateTime)
    (hgt : gt ≠ [])
    (hvg : vg gt tt = Except.ok email)
    (hs : findSession db email = some (email, exp))
    (hlt : DateTime.ltb now exp = true)
    (hres : findResource registry r = none) :
    authorizeWithResource registry (some r) vg sig now c1 c2 (some gt) tt pk db =
      (AuthOutcomeR.resourceNotFound, db) ∧
    statusCodeR (authorizeWithResource registry (some r) vg sig now c1 c2 (some gt) tt pk db).1
      = 404 := by
  have h := authorize_active_eq vg sig now c1 c2 gt tt pk db email exp hgt hvg hs hlt
  have heq : authorizeWithResource registry (some r) vg sig now c1 c2 (some gt) tt pk db =
      (AuthOutcomeR.resourceNotFound, db) := by
    unfold authorizeWithResource
    rw [h]
    simp [hres]
  refine ⟨heq, ?_⟩
  rw [heq]
  rfl

/-- Concrete instance of `resource_not_found_despite_valid_session`: the
registry lacks `plugin.so`, so the authorized-session request for it is
answered 404 with the store unchanged. -/
theorem resource_not_found_witness :
    authorizeWithResource [("other.so".toList, "http".toList)] (some "plugin.so".toList)
      (fun _ _ => Except.ok "alice@example.com".toList) (fun _ => [])
      ⟨2026, 10, 12, 9, 0, 0, 0⟩ true true (some "g".toList) "access_token".toList none
      ⟨[], [("alice@example.com".toList, ⟨2026, 10, 13, 9, 0, 0, 0⟩)]⟩ =
      (AuthOutcomeR.resourceNotFound,
        ⟨[], [("alice@example.com".toList, ⟨2026, 10, 13, 9, 0, 0, 0⟩)]⟩) ∧
    statusCodeR (authorizeWithResource [("other.so".toList, "http".toList)]
      (some "plugin.so".toList)
      (fun _ _ => Except.ok "alice@example.com".toList) (fun _ => [])
      ⟨2026, 10, 12, 9, 0, 0, 0⟩ true true (some "g".toList) "access_token".toList none
      ⟨[], [("alice@example.com".toList, ⟨2026, 10, 13, 9, 0, 0, 0⟩)]⟩).1 = 404 :=
  resource_not_found_despite_valid_session [("other.so".toList, "http".toList)]
    "plugin.so".toList
    (fun _ _ => Except.ok "alice@example.com".toList) (fun _ => [])
    ⟨2026, 10, 12, 9, 0, 0, 0⟩ true true "g".toList "access_token".toList none
    ⟨[], [("alice@example.com".toList, ⟨2026, 10, 13, 9, 0, 0, 0⟩)]⟩
    "alice@example.com".toList ⟨2026, 10, 13, 9, 0, 0, 0⟩
    (by decide) rfl (by decide) (by decide) (by decide)

/-- C7.  With identity verified and no active session — either no session
row, or a session row whose expiry is not in the future (whose stale-delete
commit succeeds) — and no license key supplied (the request field is absent
or empty, both falsy in the source's `if not provided_key`), `authorize`
fails with the distinguishable `keyRequired` error, HTTP 401, granting
nothing: not authorized and no credential issued. -/
theorem key_required_when_no_key (vg : Str → Str → Except Str Str) (sig : Str → Str)
    (now : DateTime) (c2 : Bool) (gt tt : Str) (pk : Option Str) (db : Store) (email : Str)
    (hgt : gt ≠ [])
    (hvg : vg gt tt = Except.ok email)
    (hsess : findSession db email = none ∨
      ∃ exp, findSession db email = some (email, exp) ∧ DateTime.ltb now exp = false)
    (hpk : pk = none ∨ pk = some ([] : Str)) :
    (authorize vg sig now true c2 (some gt) tt pk db).1 = AuthOutcome.keyRequired email ∧
    statusCode (authorize vg sig now true c2 (some gt) tt pk db).1 = 401 ∧
    isAuthorized (authorize vg sig now true c2 (some gt) tt pk db).1 = false ∧
    tokenOf (authorize vg sig now true c2 (some gt) tt pk db).1 = none := by
  have hred : (authorize vg sig now true c2 (some gt) tt pk db).1 =
      AuthOutcome.keyRequired email := by
    rcases hpk with hp | hp <;> subst hp
    · rcases hsess with h | ⟨exp, h, hexp⟩
      · simp [authorize, redeemPhase, hgt, hvg, h]
      · simp [authorize, redeemPhase, hgt, hvg, h, hexp]
    · rcases hsess with h | ⟨exp, h, hexp⟩
      · simp [authorize, redeemPhase, hgt, hvg, h]
      · simp [authorize, redeemPhase, hgt, hvg, h, hexp]
  refine ⟨hred, ?_, ?_, ?_⟩ <;> rw [hred] <;> rfl

/-- Concrete instance of `key_required_when_no_key`: a fresh account with an
empty store and no key supplied is answered 401 `keyRequired`. -/
theorem key_required_when_no_key_witness :
    (authorize (fun _ _ => Except.ok "alice@example.com".toList) (fun _ => [])
      ⟨2026, 10, 12, 9, 0, 0, 0⟩ true true (some "g".toList) "access_token".toList none
      ⟨[], []⟩).1 = AuthOutcome.keyRequired "alice@example.com".toList ∧
    statusCode (authorize (fun _ _ => Except.ok "alice@example.com".toList) (fun _ => [])
      ⟨2026, 10, 12, 9, 0, 0, 0⟩ true true (some "g".toList) "access_token".toList none
      ⟨[], []⟩).1 = 401 ∧
    isAuthorized (authorize (fun _ _ => Except.ok "alice@example.com".toList) (fun _ => [])
      ⟨2026, 10, 12, 9, 0, 0, 0⟩ true true (some "g".toList) "access_token".toList none
      ⟨[], []⟩).1 = false ∧
    tokenOf (authorize (fun _ _ => Except.ok "alice@example.com".toList) (fun _ => [])
      ⟨2026, 10, 12, 9, 0, 0, 0⟩ true true (some "g".toList) "access_token".toList none
      ⟨[], []⟩).1 = none :=
  key_required_when_no_key (fun _ _ => Except.ok "alice@example.com".toList) (fun _ => [])
    ⟨2026, 10, 12, 9, 0, 0, 0⟩ true "g".toList "access_token".toList none ⟨[], []⟩
    "alice@example.com".toList (by decide) rfl (Or.inl rfl) (Or.inl rfl)

/-- C4.  Session lazy expiry: with identity verified and a session row whose
expiry is not in the future (`datetime.now() < expires_at` false), the
stale-delete commit succeeding, `authorize` deletes the stale row and
behaves — response AND resulting store — exactly as the same call against
the store with that session row removed (i.e. an account with no session,
falling through to key redemption), for every supplied key and every
activation-commit outcome. -/
theorem stale_session_lazy_expiry (vg : Str → Str → Except Str Str) (sig : Str → Str)
    (now : DateTime) (c2 : Bool) (gt tt : Str) (pk : Option Str) (db : Store)
    (email : Str) (exp : DateTime)
    (hgt : gt ≠ [])
    (hvg : vg gt tt = Except.ok email)
    (hs : findSession db email = some (email, exp))
    (hexp : DateTime.ltb now exp = false) :
    findSession (deleteSession db email) email = none ∧
    authorize vg sig now true c2 (some gt) tt pk db =
      authorize vg sig now true c2 (some gt) tt pk (deleteSession db email) := by
  refine ⟨findSession_delete db email, ?_⟩
  simp [authorize, hgt, hvg, hs, hexp, findSession_delete]

/-- Concrete instance of `stale_session_lazy_expiry`: a session that expired
2026-10-11 behaves, on 2026-10-12, exactly as no session at all (here: both
runs answer 401 `keyRequired`), and the stale row is gone. -/
theorem stale_session_lazy_expiry_witness :
    findSession (deleteSession
      ⟨[], [("alice@example.com".toList, ⟨2026, 10, 11, 9, 0, 0, 0⟩)]⟩
      "alice@example.com".toList) "alice@example.com".toList = none ∧
    authorize (fun _ _ => Except.ok "alice@example.com".toList) (fun _ => [])
      ⟨2026, 10, 12, 9, 0, 0, 0⟩ true true (some "g".toList) "access_token".toList none
      ⟨[], [("alice@example.com".toList, ⟨2026, 10, 11, 9, 0, 0, 0⟩)]⟩ =
    authorize (fun _ _ => Except.ok "alice@example.com".toList) (fun _ => [])
      ⟨2026, 10, 12, 9, 0, 0, 0⟩ true true (some "g".toList) "access_token".toList none
      (deleteSession ⟨[], [("alice@example.com".toList, ⟨2026, 10, 11, 9, 0, 0, 0⟩)]⟩
        "alice@example.com".toList) :=
  stale_session_lazy_expiry (fun _ _ => Except.ok "alice@example.com".toList) (fun _ => [])
    ⟨2026, 10, 12, 9, 0, 0, 0⟩ true "g".toList "access_token".toList none
    ⟨[], [("alice@example.com".toList, ⟨2026, 10, 11, 9, 0, 0, 0⟩)]⟩
    "alice@example.com".toList ⟨2026, 10, 11, 9, 0, 0, 0⟩
    (by decide) rfl (by decide) (by decide)

/-- C3.  Atomic activation: with identity verified, no session row, and an
unconsumed key found, (i) when the activation commit succeeds the response
is 200 `activated` and BOTH mutations are visible together in the returned
store — the key row reads `used` (duration unchanged) and the account's
session row holds `now + duration` hours; (ii) when the activation commit
fails the returned store is exactly the input store — neither mutation
visible — and the response is the 500 server error carrying no credential. -/
theorem activation_atomic (vg : Str → Str → Except Str Str) (sig : Str → Str)
    (now : DateTime) (c1 : Bool) (gt tt : Str) (db : Store)
    (email k s : Str) (d : Int)
    (hgt : gt ≠ [])
    (hvg : vg gt tt = Except.ok email)
    (hsess : findSession db email = none)
    (hk : k ≠ ([] : Str))
    (hlic : findLicense db k = some (k, s, d))
    (hst : s ≠ "used".toList) :
    (authorize vg sig now c1 true (some gt) tt (some k) db).1 =
      AuthOutcome.activated email d (generate_session_token sig email (d : ℚ) now) ∧
    findLicense (authorize vg sig now c1 true (some gt) tt (some k) db).2 k =
      some (k, "used".toList, d) ∧
    findSession (authorize vg sig now c1 true (some gt) tt (some k) db).2 email =
      some (email, now.addMicros (d * 3600000000)) ∧
    authorize vg sig now c1 false (some gt) tt (some k) db = (AuthOutcome.serverError, db) ∧
    tokenOf (authorize vg sig now c1 false (some gt) tt (some k) db).1 = none := by
  have hstc : s ≠ [ 'u', 's', 'e', 'd' ] := by simpa using hst
  have hrun : authorize vg sig now c1 true (some gt) tt (some k) db =
      (AuthOutcome.activated email d (generate_session_token sig email (d : ℚ) now),
        activateStore db k email d now) := by
    simp [authorize, redeemPhase, hgt, hvg, hsess, hk, hlic, hstc]
  have hfail : authorize vg sig now c1 false (some gt) tt (some k) db =
      (AuthOutcome.serverError, db) := by
    simp [authorize, redeemPhase, hgt, hvg, hsess, hk, hlic, hstc]
  refine ⟨by rw [hrun], ?_, ?_, hfail, by rw [hfail]; rfl⟩
  · rw [hrun]
    show findLicense (activateStore db k email d now) k = some (k, "used".toList, d)
    rw [findLicense_activate, hlic]
    rfl
  · rw [hrun]
    exact findSession_activate db k email d now

/-- Concrete instance of `activation_atomic`: redeeming the unused 24-hour
key `4f3c2a1b` for a fresh account either activates — key `used` and a
24-hour session row, atomically — or, on commit failure, leaves the store
untouched with a 500 and no credential. -/
theorem activation_atomic_witness :
    (authorize (fun _ _ => Except.ok "alice@example.com".toList) (fun _ => [])
      ⟨2026, 10, 12, 9, 0, 0, 0⟩ true true (some "g".toList) "access_token".toList
      (some "4f3c2a1b".toList)
      ⟨[("4f3c2a1b".toList, "unused".toList, 24)], []⟩).1 =
      AuthOutcome.activated "alice@example.com".toList 24
        (generate_session_token (fun _ => []) "alice@example.com".toList ((24 : Int) : ℚ)
          ⟨2026, 10, 12, 9, 0, 0, 0⟩) ∧
    findLicense (authorize (fun _ _ => Except.ok "alice@example.com".toList) (fun _ => [])
      ⟨2026, 10, 12, 9, 0, 0, 0⟩ true true (some "g".toList) "access_token".toList
      (some "4f3c2a1b".toList)
      ⟨[("4f3c2a1b".toList, "unused".toList, 24)], []⟩).2 "4f3c2a1b".toList =
      some ("4f3c2a1b".toList, "used".toList, 24) ∧
    findSession (authorize (fun _ _ => Except.ok "alice@example.com".toList) (fun _ => [])
      ⟨2026, 10, 12, 9, 0, 0, 0⟩ true true (some "g".toList) "access_token".toList
      (some "4f3c2a1b".toList)
      ⟨[("4f3c2a1b".toList, "unused".toList, 24)], []⟩).2 "alice@example.com".toList =
      some ("alice@example.com".toList,
        DateTime.addMicros ⟨2026, 10, 12, 9, 0, 0, 0⟩ (24 * 3600000000)) ∧
    authorize (fun _ _ => Except.ok "alice@example.com".toList) (fun _ => [])
      ⟨2026, 10, 12, 9, 0, 0, 0⟩ true false (some "g".toList) "access_token".toList
      (some "4f3c2a1b".toList)
      ⟨[("4f3c2a1b".toList, "unused".toList, 24)], []⟩ =
      (AuthOutcome.serverError, ⟨[("4f3c2a1b".toList, "unused".toList, 24)], []⟩) ∧
    tokenOf (authorize (fun _ _ => Except.ok "alice@example.com".toList) (fun _ => [])
      ⟨2026, 10, 12, 9, 0, 0, 0⟩ true false (some "g".toList) "access_token".toList
      (some "4f3c2a1b".toList)
      ⟨[("4f3c2a1b".toList, "unused".toList, 24)], []⟩).1 = none :=
  activation_atomic (fun _ _ => Except.ok "alice@example.com".toList) (fun _ => [])
    ⟨2026, 10, 12, 9, 0, 0, 0⟩ true "g".toList "access_token".toList
    ⟨[("4f3c2a1b".toList, "unused".toList, 24)], []⟩
    "alice@example.com".toList "4f3c2a1b".toList "unused".toList 24
    (by decide) rfl (by decide) (by decide) (by decide) (by decide)

/-- C2.  The key single-use invariant FAILS on the code: the redemption
section is a plain read-then-write with no row lock and no conditional
update, so under the read-committed interleaving read₁, read₂, write₁+commit,
write₂+commit of two redemptions of the SAME unused key `4f3c2a1b` (for
accounts `alice` and `bob`), both reads observe `unused` and BOTH requests
respond 200 `Authorized` — two successes, where the claim requires exactly
one success and one `KeyAlreadyUsed` failure. -/
theorem interleaved_double_redemption_both_succeed :
    isAuthorized (interleavedRedemption (fun _ => []) ⟨2026, 10, 12, 9, 0, 0, 0⟩
      "4f3c2a1b".toList "alice@example.com".toList "bob@example.com".toList
      ⟨[("4f3c2a1b".toList, "unused".toList, 24)], []⟩).1 = true ∧
    isAuthorized (interleavedRedemption (fun _ => []) ⟨2026, 10, 12, 9, 0, 0, 0⟩
      "4f3c2a1b".toList "alice@example.com".toList "bob@example.com".toList
      ⟨[("4f3c2a1b".toList, "unused".toList, 24)], []⟩).2.1 = true ∧
    findLicense (interleavedRedemption (fun _ => []) ⟨2026, 10, 12, 9, 0, 0, 0⟩
      "4f3c2a1b".toList "alice@example.com".toList "bob@example.com".toList
      ⟨[("4f3c2a1b".toList, "unused".toList, 24)], []⟩).2.2 "4f3c2a1b".toList =
      some ("4f3c2a1b".toList, "used".toList, 24) := by
  with_unfolding_all decide
